import Mathlib

/-!
Verification of the tundra candidate-fire detection pipeline
(Scripts/candidate_fire_vector_export_code.js).

The development shallowly embeds the per-pixel semantics of the pipeline:
rasters become functions from band names and pixels to optional rational
values (a masked pixel is none), image collections become lists of dated
observations, and the Earth Engine operators used by the script (filterDate,
median, min, divide, updateMask, bitwiseAnd, interpolate, gt, lt, add, eq)
become the corresponding Lean functions.  Real-valued burn metrics that
involve a square root are embedded over the reals.
-/

/-! ## Band catalogs (source lines 22-27) -/

/-- Band names of the 15 spectral indices, in the order of the source list
allVariables (source line 26). -/
def allVariables : List String :=
  ["nbr", "nbr2", "ndvi", "ndmi", "ndwi", "evi", "mirbi",
   "bai", "baims", "csi", "bsi", "msavi", "tcb", "tcg", "tcw"]

/-- Predictor subset used for classification (source line 25). -/
def predictorVariables : List String := ["dNBR2", "dTCG", "dTCB"]

/-! ## Per-observation feature raster schema (source lines 534-557 and 475-529) -/

/-- Band names of the image produced by the Indices function: the 15 index
bands in addBands order followed by the qa band (source lines 536-555). -/
def IndicesBandNames : List String :=
  ["nbr", "nbr2", "ndvi", "ndmi", "ndwi", "evi", "mirbi",
   "bai", "baims", "csi", "bsi", "msavi", "tcb", "tcg", "tcw", "qa_pixel"]

/-- Band selection: image.select(req) keeps exactly the requested band names
and fails when one of them is absent from the image. -/
def selectBands (req avail : List String) : Option (List String) :=
  if req.all (fun b => avail.contains b) then some req else none

/-- Band schema of the observations entering the merged collection imgCol:
both masking functions end with .select(allVariables) applied to the output
of Indices (source lines 498 and 527), and imgCol is what the compositing
steps reduce. -/
def compositorInputBands : Option (List String) :=
  selectBands allVariables IndicesBandNames

/-! ## Quality-band decoding (source lines 475-529) -/

/-- Truncation toward zero of a rational, as the Earth Engine int() cast. -/
def qtrunc (q : ℚ) : ℤ := if 0 ≤ q then ⌊q⌋ else ⌈q⌉

/-- Piecewise-linear interpolation with the breakpoints [0, 129, 257, 384]
mapped to [0, 1, 2, 3] and clamp behavior outside the range, as in the
interpolate call of the masking functions (source lines 485-487). -/
def interpolateClamp (v : ℚ) : ℚ :=
  if v ≤ 0 then 0
  else if v ≤ 129 then 0 + (v - 0) / (129 - 0) * (1 - 0)
  else if v ≤ 257 then 1 + (v - 129) / (257 - 129) * (2 - 1)
  else if v ≤ 384 then 2 + (v - 257) / (384 - 257) * (3 - 2)
  else 3

/-- Cloud-confidence value computed by both masking functions:
quality.bitwiseAnd(128).add(quality.bitwiseAnd(256)) interpolated over
[0,129,257,384] to [0,1,2,3] with clamp, then cast to int
(source lines 485-487 and 511-513). -/
def cloudConfidence (qa : ℕ) : ℤ :=
  qtrunc (interpolateClamp (((qa &&& 128) + (qa &&& 256) : ℕ) : ℚ))

/-- Standard-mask exclusion: a pixel is removed when any of the cloud,
dilated-cloud, cloud-shadow, water or snow bits (8, 2, 16, 128, 32) of the
qa band is set; the cloud-confidence term is commented out
(source lines 490-495). -/
def lsMaskNewExcl (qa : ℕ) : Bool :=
  ((qa &&& 8) != 0) || ((qa &&& 2) != 0) || ((qa &&& 16) != 0) ||
    ((qa &&& 128) != 0) || ((qa &&& 32) != 0)

/-- Degraded-sensor-mask exclusion: the same five defect bits plus the
cloud-confidence-at-least-medium term (source lines 516-521). -/
def SLC_lsMaskExcl (qa : ℕ) : Bool :=
  ((qa &&& 8) != 0) || ((qa &&& 2) != 0) || ((qa &&& 16) != 0) ||
    ((qa &&& 128) != 0) || ((qa &&& 32) != 0) ||
    decide (2 ≤ cloudConfidence qa)

/-! ## Rule fusion (source lines 830, 868-879, 896-904, 939-943) -/

/-- Earth Engine updateMask with a boolean mask image: a pixel keeps its
value exactly when the mask is true. -/
def updateMask (m : Bool) (v : Option ℚ) : Option ℚ := if m then v else none

/-- Earth Engine img.gt(t): strict greater-than threshold, masked pixels
stay masked. -/
def gtIMG (t : ℚ) (v : Option ℚ) : Option Bool :=
  v.map (fun x => decide (t < x))

/-- Earth Engine img.lt(t): strict less-than threshold, masked pixels stay
masked. -/
def ltIMG (t : ℚ) (v : Option ℚ) : Option Bool :=
  v.map (fun x => decide (x < t))

/-- Numeric value of a boolean raster pixel. -/
def boolToQ (b : Bool) : ℚ := if b then 1 else 0

/-- Earth Engine img.add: masked when either operand is masked. -/
def addIMG (a b : Option ℚ) : Option ℚ :=
  match a, b with
  | some x, some y => some (x + y)
  | _, _ => none

/-- Candidate fire mask at one pixel.  The four decision rasters are
hiRFthresh = predictedImage.gt(0.9), hiDEVthresh = divIMG nbr2 lt 0.5,
hiSUBthresh = subIMG nbr2 lt -0.1 and hiMNthresh = meanIMG nbr lt 0
(source lines 876-879); each of the four numeric inputs was previously
masked by dryLand and land (source lines 830 and 868-870); the vector step
keeps a pixel exactly when one.add(two).add(three).add(four).eq(4) is
unmasked and true (source lines 939-943 and 896-904). -/
def candidateFireMask (dry land : Bool) (prob divnbr2 subnbr2 minnbr : Option ℚ) : Bool :=
  decide
    (addIMG
      (addIMG
        (addIMG
          (Option.map boolToQ (gtIMG (9/10) (updateMask land (updateMask dry prob))))
          (Option.map boolToQ (ltIMG (1/2) (updateMask land (updateMask dry divnbr2)))))
        (Option.map boolToQ (ltIMG (-(1/10)) (updateMask land (updateMask dry subnbr2)))))
      (Option.map boolToQ (ltIMG 0 (updateMask land (updateMask dry minnbr))))
      = some 4)

/-! ## Normalized-difference indices (source lines 534-540) -/

/-- Earth Engine normalizedDifference of two bands. -/
def normalizedDifference (a b : ℚ) : ℚ := (a - b) / (a + b)

/-- View of one pixel of a canonical raster: the value of each band. -/
abbrev BandImg := String → ℚ

/-- Canonical band names used by the index formulas. -/
def blueB : String := "blue"

def greenB : String := "green"

def redB : String := "red"

def nirB : String := "nir"

def sswirB : String := "sswir"

def lswirB : String := "lswir"

/-- NBR: normalized difference of nir and lswir (source line 536). -/
def nbrOf (img : BandImg) : ℚ := normalizedDifference (img nirB) (img lswirB)

/-- NBR2: normalized difference of sswir and lswir (source line 537). -/
def nbr2Of (img : BandImg) : ℚ := normalizedDifference (img sswirB) (img lswirB)

/-- NDVI: normalized difference of nir and red (source line 538). -/
def ndviOf (img : BandImg) : ℚ := normalizedDifference (img nirB) (img redB)

/-- NDMI: normalized difference of nir and sswir (source line 539). -/
def ndmiOf (img : BandImg) : ℚ := normalizedDifference (img nirB) (img sswirB)

/-- NDWI: normalized difference of green and nir (source line 540). -/
def ndwiOf (img : BandImg) : ℚ := normalizedDifference (img greenB) (img nirB)

/-- Scaling of every band of a pixel by a constant. -/
def scaleImg (c : ℚ) (img : BandImg) : BandImg := fun b => c * img b

/-- Concrete pixel used to instantiate the scale-invariance theorem. -/
def sampleBandImg : BandImg := fun b =>
  if b = "nir" then 4 else if b = "lswir" then 2 else 1

/-! ## Burn metrics (source lines 727-744) -/

/-- Truncation toward zero of a real number, as the Earth Engine toInt()
cast applied to the burn-metric bands. -/
noncomputable def rtrunc (x : ℝ) : ℤ := if 0 ≤ x then ⌊x⌋ else ⌈x⌉

/-- dnbr band: (pre_nbr - post_nbr) * 1000 cast to int (source lines 727-729). -/
noncomputable def dnbr (pre post : ℝ) : ℤ := rtrunc ((pre - post) * 1000)

/-- rbr band: dnbr / (pre_nbr + 1.001) cast to int (source lines 732-734). -/
noncomputable def rbr (pre post : ℝ) : ℤ :=
  rtrunc ((dnbr pre post : ℝ) / (pre + 1.001))

/-- pre_nbr3 band: the expression abs(pre_nbr) < 0.001 ? 0.001 : pre_nbr
followed by .abs().sqrt(), kept as float (source lines 737-740). -/
noncomputable def pre_nbr3 (pre : ℝ) : ℝ :=
  Real.sqrt |if |pre| < 0.001 then 0.001 else pre|

/-- rdnbr band: dnbr / pre_nbr3 cast to int (source lines 742-744). -/
noncomputable def rdnbr (pre post : ℝ) : ℤ :=
  rtrunc ((dnbr pre post : ℝ) / pre_nbr3 pre)

/-! ## Dated observations and temporal compositing
(source lines 689-722 and 837-849) -/

/-- Acquisition date of an observation: a year and a day of year, ordered
lexicographically.  June 15 is day 166 and September 1 is day 244. -/
structure LsDate where
  year : ℤ
  doy : ℤ

/-- Date order, start-inclusive comparisons of filterDate. -/
def dateLE (a b : LsDate) : Prop :=
  a.year < b.year ∨ (a.year = b.year ∧ a.doy ≤ b.doy)

instance (a b : LsDate) : Decidable (dateLE a b) :=
  inferInstanceAs (Decidable (a.year < b.year ∨ (a.year = b.year ∧ a.doy ≤ b.doy)))

/-- Strict date order, used for the exclusive end of filterDate. -/
def dateLT (a b : LsDate) : Prop :=
  a.year < b.year ∨ (a.year = b.year ∧ a.doy < b.doy)

instance (a b : LsDate) : Decidable (dateLT a b) :=
  inferInstanceAs (Decidable (a.year < b.year ∨ (a.year = b.year ∧ a.doy < b.doy)))

/-- Membership of a date in a half-open window [s, e). -/
def inDateWindow (s e d : LsDate) : Prop := dateLE s d ∧ dateLT d e

instance (s e d : LsDate) : Decidable (inDateWindow s e d) :=
  inferInstanceAs (Decidable (dateLE s d ∧ dateLT d e))

/-- ee.Date(year_select + "-06-15") (source line 698). -/
def startDate (y : ℤ) : LsDate := ⟨y, 166⟩

/-- ee.Date(year_select + "-09-01") (source line 699). -/
def endDate (y : ℤ) : LsDate := ⟨y, 244⟩

/-- date.advance(n, "year"). -/
def advanceYears (n : ℤ) (d : LsDate) : LsDate := ⟨d.year + n, d.doy⟩

/-- One observation of a collection: its timestamp, its band names, and its
per-band per-pixel optional value (a masked pixel is none). -/
structure Obs (P : Type) where
  t : LsDate
  bands : List String
  val : String → P → Option ℚ

variable {P : Type}

/-- collection.filterDate(s, e): start inclusive, end exclusive. -/
def filterDate (s e : LsDate) (col : List (Obs P)) : List (Obs P) :=
  col.filter (fun o => decide (inDateWindow s e o.t))

/-- Unmasked values of a collection at one band and pixel, in collection
order; observations lacking the band contribute nothing. -/
def unmaskedAt (col : List (Obs P)) (b : String) (p : P) : List ℚ :=
  col.filterMap (fun o => if o.bands.contains b then o.val b p else none)

/-- Median of a sorted list of rationals: none when empty, the middle
element for odd length, the mean of the two middle elements for even
length. -/
def medianSorted (s : List ℚ) : Option ℚ :=
  if s.length = 0 then none
  else if s.length % 2 = 1 then s[s.length / 2]?
  else
    match s[s.length / 2 - 1]?, s[s.length / 2]? with
    | some a, some b => some ((a + b) / 2)
    | _, _ => none

/-- Median of a list of rationals. -/
def medianQ (l : List ℚ) : Option ℚ :=
  medianSorted (l.insertionSort (fun a b => a ≤ b))

/-- collection.median() at one band and pixel: the median reducer ignores
masked inputs and yields no data when no input is unmasked. -/
def medianAt (col : List (Obs P)) (b : String) (p : P) : Option ℚ :=
  medianQ (unmaskedAt col b p)

/-- The transparent backfill image: one fully masked float band per entry
of allVariables, renamed to allVariables (source lines 689-693).  Its
timestamp is irrelevant because it is merged after date filtering. -/
def transparentImage : Obs P := ⟨⟨0, 0⟩, allVariables, fun _ _ => none⟩

/-- Band names carried by a composite of a collection: reducing a
collection requires its images to share one band schema, and the composite
carries that schema. -/
def compBands (col : List (Obs P)) : List String :=
  match col with
  | [] => []
  | o :: _ => o.bands

/-- preFilteredCol: the collection date-filtered to the year before the
analysis year, merged with the transparent image (source lines 703-708). -/
def preFilteredCol (col : List (Obs P)) (y : ℤ) : List (Obs P) :=
  filterDate (advanceYears (-1) (startDate y)) (advanceYears (-1) (endDate y)) col
    ++ [transparentImage]

/-- postFilteredCol: the collection date-filtered to the year after the
analysis year, merged with the transparent image (source lines 714-719). -/
def postFilteredCol (col : List (Obs P)) (y : ℤ) : List (Obs P) :=
  filterDate (advanceYears 1 (startDate y)) (advanceYears 1 (endDate y)) col
    ++ [transparentImage]

/-! ## Deviation detector (source lines 837-849) -/

/-- Earth Engine division of two optional pixel values: masked when either
operand is masked or the divisor is zero. -/
def optDiv (a b : Option ℚ) : Option ℚ :=
  match a, b with
  | some x, some y => if y = 0 then none else some (x / y)
  | _, _ => none

/-- IMG.divide(M) for one observation: pixelwise division by a baseline
raster, keeping the timestamp and band names (source line 845). -/
def divObs (M : String → P → Option ℚ) (o : Obs P) : Obs P :=
  ⟨o.t, o.bands, fun b p => optDiv (o.val b p) (M b p)⟩

/-- TSdevDiv: every observation of the collection divided pixelwise by the
baseline (source line 845). -/
def TSdevDiv (col : List (Obs P)) (M : String → P → Option ℚ) : List (Obs P) :=
  col.map (divObs M)

/-- PREmedian as the code computes it: the median of the concatenation of
the three collections Tm1, Tm2, Tm3 obtained by date-filtering the merged
collection to the windows shifted by -1, -2 and -3 years
(source lines 837-840). -/
def PREmedianCode (col : List (Obs P)) (y : ℤ) : String → P → Option ℚ :=
  fun b p =>
    medianAt
      (filterDate (advanceYears (-1) (startDate y)) (advanceYears (-1) (endDate y)) col
        ++ (filterDate (advanceYears (-2) (startDate y)) (advanceYears (-2) (endDate y)) col
          ++ filterDate (advanceYears (-3) (startDate y)) (advanceYears (-3) (endDate y)) col))
      b p

/-- Modelled from the spec wording for comparison with PREmedianCode: the
pixelwise median over the union of the three observation windows of years
analysis_year-1, -2 and -3, each within the fixed June 15 to September 1
day-of-year window. -/
def PREmedianSpec (col : List (Obs P)) (y : ℤ) : String → P → Option ℚ :=
  fun b p =>
    medianAt
      (col.filter (fun o =>
        decide (inDateWindow (startDate (y - 1)) (endDate (y - 1)) o.t) ||
          (decide (inDateWindow (startDate (y - 2)) (endDate (y - 2)) o.t) ||
            decide (inDateWindow (startDate (y - 3)) (endDate (y - 3)) o.t))))
      b p

/-- Pixelwise minimum of two composites: the min reducer over a two-image
collection ignores masked inputs (source line 849). -/
def minOpt (a b : Option ℚ) : Option ℚ :=
  match a, b with
  | some x, some y => some (min x y)
  | some x, none => some x
  | none, some y => some y
  | none, none => none

/-- divCol as the code computes it: the whole collection is divided by
PREmedian, the result is date-filtered to the fire year + 1 window and to
the fire year window, each is reduced by median, and the two results are
combined by pixelwise minimum (source lines 845-849). -/
def divColCode (col : List (Obs P)) (y : ℤ) : String → P → Option ℚ :=
  fun b p =>
    minOpt
      (medianAt
        (filterDate (advanceYears 1 (startDate y)) (advanceYears 1 (endDate y))
          (TSdevDiv col (PREmedianCode col y))) b p)
      (medianAt
        (filterDate (advanceYears 0 (startDate y)) (advanceYears 0 (endDate y))
          (TSdevDiv col (PREmedianCode col y))) b p)

/-- Modelled from the spec wording for comparison with divColCode: the
pixelwise minimum of two rasters, each being the median over one evaluation
window (the fire year, and the fire year + 1) of every observation divided
pixelwise by PREmedian. -/
def divColSpec (col : List (Obs P)) (y : ℤ) : String → P → Option ℚ :=
  fun b p =>
    minOpt
      (medianAt (TSdevDiv (filterDate (startDate y) (endDate y) col)
        (PREmedianSpec col y)) b p)
      (medianAt (TSdevDiv (filterDate (startDate (y + 1)) (endDate (y + 1)) col)
        (PREmedianSpec col y)) b p)

/-! ## Tiled export loop (source lines 884-926) -/

/-- Number of cells of the covering grid built over the default ROI
(source lines 884 and 896-899). -/
def gridCellCount : ℕ := 24

/-- Grid cell indices. -/
def gridIndices : List ℕ := List.range gridCellCount

/-- Tile indices visited by the export loop: for (var i = 1; i < 24; i++)
(source line 896). -/
def exportedTileIndices : List ℕ := List.range' 1 23

/-- Sample observation used to instantiate the sentinel-merge theorem. -/
def sampleObs : Obs Unit := ⟨⟨2000, 200⟩, allVariables, fun _ _ => some 1⟩

/-! ## Theorems -/

theorem nat_and_128_cases (qa : ℕ) : qa &&& 128 = 0 ∨ qa &&& 128 = 128 := by
  have h : qa &&& 128 = (qa.testBit 7).toNat * 128 := by
    have h2 := Nat.and_two_pow qa 7
    norm_num at h2
    exact h2
  rcases Bool.eq_false_or_eq_true (qa.testBit 7) with hb | hb <;> rw [h, hb] <;> simp

theorem nat_and_256_cases (qa : ℕ) : qa &&& 256 = 0 ∨ qa &&& 256 = 256 := by
  have h : qa &&& 256 = (qa.testBit 8).toNat * 256 := by
    have h2 := Nat.and_two_pow qa 8
    norm_num at h2
    exact h2
  rcases Bool.eq_false_or_eq_true (qa.testBit 8) with hb | hb <;> rw [h, hb] <;> simp

theorem cloudConfidence_lt_two (qa : ℕ) (h : qa &&& 128 = 0) : cloudConfidence qa < 2 := by
  rcases nat_and_256_cases qa with h2 | h2 <;> simp only [cloudConfidence, h, h2] <;>
    norm_num [interpolateClamp, qtrunc]

theorem cloudConfidence_768 : cloudConfidence 768 = 1 := by
  have h1 : (768 &&& 128 : ℕ) = 0 := by decide
  have h2 : (768 &&& 256 : ℕ) = 256 := by decide
  simp only [cloudConfidence, h1, h2]
  norm_num [interpolateClamp, qtrunc]

theorem cloudConfidence_384 : cloudConfidence 384 = 3 := by
  have h1 : (384 &&& 128 : ℕ) = 128 := by decide
  have h2 : (384 &&& 256 : ℕ) = 256 := by decide
  simp only [cloudConfidence, h1, h2]
  norm_num [interpolateClamp, qtrunc]

theorem SLC_eq_lsMaskNew (qa : ℕ) : SLC_lsMaskExcl qa = lsMaskNewExcl qa := by
  rcases nat_and_128_cases qa with h | h
  · have hc : decide (2 ≤ cloudConfidence qa) = false := by
      simp only [decide_eq_false_iff_not, not_le]
      exact cloudConfidence_lt_two qa h
    simp [SLC_lsMaskExcl, lsMaskNewExcl, hc]
  · simp [SLC_lsMaskExcl, lsMaskNewExcl, h]

/-- Claim C3: the spec asserts that a pixel whose 2-bit cloud-confidence
field (bits 8-9 of the qa word) reads binary 11, with no other defect bit
set, is excluded by the degraded-sensor mask and kept by the standard mask.
On the code this fails: the masking functions read bits 7-8 (bitwiseAnd
with 128 and 256), so for qa = 768 (bits 8 and 9 set, all defect bits
clear) the computed cloud confidence is 1 and neither mask excludes the
pixel; moreover the two exclusion predicates agree on every qa value, since
the only sum reaching confidence 2 requires bit 7, the water defect bit,
which already excludes the pixel under the standard mask. -/
theorem C3_cloud_confidence_misread :
    cloudConfidence 768 = 1 ∧
    SLC_lsMaskExcl 768 = false ∧
    lsMaskNewExcl 768 = false ∧
    (∀ qa : ℕ, SLC_lsMaskExcl qa = lsMaskNewExcl qa) ∧
    cloudConfidence 384 = 3 ∧
    lsMaskNewExcl 384 = true := by
  refine ⟨cloudConfidence_768, ?_, by decide, SLC_eq_lsMaskNew, cloudConfidence_384, by decide⟩
  simp only [SLC_lsMaskExcl, cloudConfidence_768]
  decide

/-- Claim C9: in default-ROI export mode the covering grid has 24 cells but
the export loop runs i from 1 while i < 24, so exactly 23 tile exports are
issued and grid cell 0 is never exported. -/
theorem C9_export_loop_skips_cell_zero :
    gridIndices.length = gridCellCount ∧
    gridCellCount = 24 ∧
    exportedTileIndices.length = 23 ∧
    (0 ∈ gridIndices) ∧
    (0 ∉ exportedTileIndices) ∧
    (∀ i : Fin 24, i.val ∈ exportedTileIndices ↔ 1 ≤ i.val) := by decide

/-- Claim C4, counterexample: the raster consumed by the compositor is the
output of the masking stage, which selects exactly the 15 index bands; it
has 15 bands, does not carry the qa band, and is not the 16-band Indices
output. -/
theorem C4_counterexample_bands :
    compositorInputBands = some allVariables ∧
    allVariables.length = 15 ∧
    ("qa_pixel" ∉ allVariables) ∧
    compositorInputBands ≠ some IndicesBandNames := by decide

/-- Claim C4 as amended: the Indices function concatenates the 15 index
bands plus the qa band into a 16-band raster per observation; the masking
stage consumes it and selects only the 15 index bands, so the rasters
consumed by the Temporal Compositor carry exactly the 15 index band
names. -/
theorem C4_amended_bands :
    IndicesBandNames = allVariables ++ ["qa_pixel"] ∧
    IndicesBandNames.length = 16 ∧
    compositorInputBands = some allVariables ∧
    allVariables.length = 15 := by decide

/-- Claim C1: at every pixel the candidate fire mask is true exactly when
the pixel is dry land (non-permanent-water and land) and all four decision
rules hold: probability above 0.9, ratio deviation of nbr2 below 0.5,
subtract deviation of nbr2 below -0.1 and minimum nbr below 0; and for all
16 combinations of four boolean rasters their sum equals 4 exactly when all
four are true. -/
theorem C1_candidate_mask_iff_all_rules :
    ∀ (dry land : Bool) (p d s m : ℚ),
      (candidateFireMask dry land (some p) (some d) (some s) (some m) =
        (dry && land && decide ((9:ℚ)/10 < p) && decide (d < (1:ℚ)/2) &&
          decide (s < -((1:ℚ)/10)) && decide (m < (0:ℚ)))) ∧
      (∀ r1 r2 r3 r4 : Bool,
        boolToQ r1 + boolToQ r2 + boolToQ r3 + boolToQ r4 = 4 ↔
          (r1 = true ∧ r2 = true ∧ r3 = true ∧ r4 = true)) := by
  intro dry land p d s m
  constructor
  · cases dry with
    | false => simp [candidateFireMask, updateMask, gtIMG, ltIMG, addIMG]
    | true =>
      cases land with
      | false => simp [candidateFireMask, updateMask, gtIMG, ltIMG, addIMG]
      | true =>
        simp only [candidateFireMask, updateMask, if_true, gtIMG, ltIMG, addIMG,
          Option.map_some', Bool.true_and]
        generalize decide ((9:ℚ)/10 < p) = c1
        generalize decide (d < (1:ℚ)/2) = c2
        generalize decide (s < -((1:ℚ)/10)) = c3
        generalize decide (m < (0:ℚ)) = c4
        cases c1 <;> cases c2 <;> cases c3 <;> cases c4 <;>
          simp [boolToQ] <;> norm_num
  · intro r1 r2 r3 r4
    cases r1 <;> cases r2 <;> cases r3 <;> cases r4 <;> simp [boolToQ] <;> norm_num

theorem normDiff_scale (c a b : ℚ) (hc : c ≠ 0) :
    normalizedDifference (c * a) (c * b) = normalizedDifference a b := by
  unfold normalizedDifference
  rcases eq_or_ne (a + b) 0 with h | h
  · have h2 : c * a + c * b = 0 := by rw [← mul_add, h, mul_zero]
    rw [h, h2, div_zero, div_zero]
  · have h2 : c * a + c * b ≠ 0 := by rw [← mul_add]; exact mul_ne_zero hc h
    field_simp
    ring

theorem normDiff_bounds (a b : ℚ) (ha : 0 ≤ a) (hb : 0 ≤ b) (hab : a + b ≠ 0) :
    -1 ≤ normalizedDifference a b ∧ normalizedDifference a b ≤ 1 := by
  have hpos : 0 < a + b := lt_of_le_of_ne (by linarith) (Ne.symm hab)
  unfold normalizedDifference
  constructor
  · rw [le_div_iff₀ hpos]
    linarith
  · rw [div_le_one hpos]
    linarith

/-- Claim C8: each of the five normalized-difference indices is unchanged
when every band of the pixel is scaled by the same positive constant, and
the normalized difference of two finite non-negative values with nonzero
sum lies in the closed interval from -1 to 1. -/
theorem C8_normalized_difference_properties :
    ∀ (img : BandImg) (c : ℚ), 0 < c →
      ((nbrOf (scaleImg c img) = nbrOf img ∧
        nbr2Of (scaleImg c img) = nbr2Of img ∧
        ndviOf (scaleImg c img) = ndviOf img ∧
        ndmiOf (scaleImg c img) = ndmiOf img ∧
        ndwiOf (scaleImg c img) = ndwiOf img) ∧
       (∀ a b : ℚ, 0 ≤ a → 0 ≤ b → a + b ≠ 0 →
          -1 ≤ normalizedDifference a b ∧ normalizedDifference a b ≤ 1)) := by
  intro img c hc
  have hc0 : c ≠ 0 := ne_of_gt hc
  refine ⟨⟨?_, ?_, ?_, ?_, ?_⟩, fun a b ha hb hab => normDiff_bounds a b ha hb hab⟩ <;>
    simp only [nbrOf, nbr2Of, ndviOf, ndmiOf, ndwiOf, scaleImg] <;>
    exact normDiff_scale c _ _ hc0

/-- Witness for C8 at a concrete pixel and scale factor. -/
theorem C8_normalized_difference_properties_witness :
    (0:ℚ) < 2 ∧
    nbrOf (scaleImg 2 sampleBandImg) = nbrOf sampleBandImg ∧
    (0 ≤ (3:ℚ) ∧ 0 ≤ (1:ℚ) ∧ (3:ℚ) + 1 ≠ 0) ∧
    -1 ≤ normalizedDifference 3 1 ∧ normalizedDifference 3 1 ≤ 1 :=
  ⟨by norm_num,
   ((C8_normalized_difference_properties sampleBandImg 2 (by norm_num)).1).1,
   ⟨by norm_num, by norm_num, by norm_num⟩,
   ((C8_normalized_difference_properties sampleBandImg 2 (by norm_num)).2 3 1
      (by norm_num) (by norm_num) (by norm_num)).1,
   ((C8_normalized_difference_properties sampleBandImg 2 (by norm_num)).2 3 1
      (by norm_num) (by norm_num) (by norm_num)).2⟩

theorem dnbr_concrete : dnbr 0.6 (-0.1) = 700 := by
  unfold dnbr rtrunc
  have h7 : (((0.6:ℝ)) - (-0.1)) * 1000 = 700 := by norm_num
  rw [h7, if_pos (by norm_num : (0:ℝ) ≤ 700)]
  norm_num

theorem pre_nbr3_concrete : pre_nbr3 0.6 = Real.sqrt 0.6 := by
  unfold pre_nbr3
  have habs : |(0.6:ℝ)| = 0.6 := abs_of_pos (by norm_num)
  rw [habs, if_neg (by norm_num : ¬((0.6:ℝ) < 0.001)), habs]

theorem sqrt06_lb : (0.7745:ℝ) < Real.sqrt 0.6 :=
  (Real.lt_sqrt (by norm_num)).mpr (by norm_num)

theorem sqrt06_ub : Real.sqrt 0.6 < 0.7747 :=
  (Real.sqrt_lt' (by norm_num)).mpr (by norm_num)

/-- Claim C2: the burn-metric calculator evaluated on the end-to-end
scenario pre_nbr = 0.6, post_nbr = -0.1 yields dnbr = 700, rbr = 437
(the integer truncation of 700 / 1.601), pre_nbr3 = sqrt 0.6 which is
0.7746 up to 0.0001, and rdnbr = 903 (the integer truncation of
700 / sqrt 0.6). -/
theorem C2_burn_metric_scenario :
    dnbr 0.6 (-0.1) = 700 ∧
    rbr 0.6 (-0.1) = 437 ∧
    pre_nbr3 0.6 = Real.sqrt 0.6 ∧
    |pre_nbr3 0.6 - 0.7746| < 0.0001 ∧
    rdnbr 0.6 (-0.1) = 903 := by
  have hsp : 0 < Real.sqrt 0.6 := Real.sqrt_pos.mpr (by norm_num)
  refine ⟨dnbr_concrete, ?_, pre_nbr3_concrete, ?_, ?_⟩
  · unfold rbr rtrunc
    rw [dnbr_concrete]
    have h1 : ((700:ℤ):ℝ) / ((0.6:ℝ) + 1.001) = 700 / 1.601 := by norm_num
    rw [h1, if_pos (by positivity : (0:ℝ) ≤ 700 / 1.601)]
    rw [Int.floor_eq_iff]
    constructor
    · norm_num
    · norm_num
  · rw [pre_nbr3_concrete, abs_lt]
    constructor
    · have h := sqrt06_lb
      linarith
    · have h := sqrt06_ub
      linarith
  · unfold rdnbr rtrunc
    rw [dnbr_concrete, pre_nbr3_concrete]
    have h1 : ((700:ℤ):ℝ) = 700 := by norm_num
    rw [h1, if_pos (div_nonneg (by norm_num) (le_of_lt hsp))]
    rw [Int.floor_eq_iff]
    constructor
    · rw [le_div_iff₀ hsp]
      have h := sqrt06_ub
      push_cast
      nlinarith
    · rw [div_lt_iff₀ hsp]
      have h := sqrt06_lb
      push_cast
      nlinarith

/-- Claim C6: whenever the absolute value of pre_nbr is below 0.001 the
clamp path is taken and pre_nbr3 equals sqrt 0.001, which is 0.0316 up to
0.0001; and for every pre_nbr value the denominator pre_nbr3 is strictly
positive, so rdnbr never divides by zero. -/
theorem C6_rdnbr_denominator_clamp :
    ∀ pre : ℝ,
      (|pre| < 0.001 → pre_nbr3 pre = Real.sqrt 0.001) ∧
      0 < pre_nbr3 pre ∧
      (0.0316:ℝ) < Real.sqrt 0.001 ∧ Real.sqrt 0.001 < 0.0317 := by
  intro pre
  refine ⟨?_, ?_, (Real.lt_sqrt (by norm_num)).mpr (by norm_num),
    (Real.sqrt_lt' (by norm_num)).mpr (by norm_num)⟩
  · intro h
    unfold pre_nbr3
    rw [if_pos h, abs_of_pos (by norm_num : (0:ℝ) < 0.001)]
  · unfold pre_nbr3
    by_cases h : |pre| < 0.001
    · rw [if_pos h]
      apply Real.sqrt_pos.mpr
      rw [abs_of_pos (by norm_num : (0:ℝ) < 0.001)]
      norm_num
    · rw [if_neg h]
      apply Real.sqrt_pos.mpr
      have h2 : (0.001:ℝ) ≤ |pre| := le_of_not_lt h
      exact lt_of_lt_of_le (by norm_num) h2

/-- Witness for C6 at the scenario value pre_nbr = 0.0005. -/
theorem C6_rdnbr_denominator_clamp_witness :
    |(0.0005:ℝ)| < 0.001 ∧
    pre_nbr3 0.0005 = Real.sqrt 0.001 ∧
    0 < pre_nbr3 0.0005 :=
  ⟨by rw [abs_of_pos (by norm_num : (0:ℝ) < 0.0005)]; norm_num,
   (C6_rdnbr_denominator_clamp 0.0005).1
     (by rw [abs_of_pos (by norm_num : (0:ℝ) < 0.0005)]; norm_num),
   (C6_rdnbr_denominator_clamp 0.0005).2.1⟩

theorem medianQ_nil : medianQ [] = none := rfl

theorem compBands_sentinel :
    compBands ([transparentImage] : List (Obs P)) = allVariables := rfl

theorem selectBands_all : selectBands allVariables allVariables = some allVariables := by
  decide

theorem unmaskedAt_append_sentinel (col : List (Obs P)) (b : String) (p : P) :
    unmaskedAt (col ++ [transparentImage]) b p = unmaskedAt col b p := by
  unfold unmaskedAt
  rw [List.filterMap_append]
  simp [transparentImage]

theorem sentinel_only_composite (b : String) (p : P) :
    medianAt ([transparentImage] : List (Obs P)) b p = none := by
  have hu : unmaskedAt ([transparentImage] : List (Obs P)) b p = [] := by
    unfold unmaskedAt
    simp [transparentImage]
  unfold medianAt
  rw [hu]
  exact medianQ_nil

/-- Claim C10: merging the all-masked transparent image into a collection
before the median reduction never changes the composite at a pixel and band
with at least one unmasked observation, and at a pixel and band with no
unmasked observation the composite is no data both with and without the
sentinel. -/
theorem C10_sentinel_merge_neutral :
    ∀ (P : Type) (col : List (Obs P)) (b : String) (p : P),
      (unmaskedAt col b p ≠ [] →
        medianAt (col ++ [transparentImage]) b p = medianAt col b p) ∧
      (unmaskedAt col b p = [] →
        medianAt (col ++ [transparentImage]) b p = none ∧
          medianAt col b p = none) := by
  intro P col b p
  have key : medianAt (col ++ [transparentImage]) b p = medianAt col b p := by
    unfold medianAt
    rw [unmaskedAt_append_sentinel]
  constructor
  · intro _
    exact key
  · intro h
    have h2 : medianAt col b p = none := by
      unfold medianAt
      rw [h]
      exact medianQ_nil
    exact ⟨key.trans h2, h2⟩

/-- Witness for C10: one unmasked observation on one side, the empty
collection on the other. -/
theorem C10_sentinel_merge_neutral_witness :
    (unmaskedAt [sampleObs] "nbr" () ≠ [] ∧
      medianAt ([sampleObs] ++ [transparentImage]) "nbr" () =
        medianAt [sampleObs] "nbr" ()) ∧
    (unmaskedAt ([] : List (Obs Unit)) "nbr" () = [] ∧
      medianAt (([] : List (Obs Unit)) ++ [transparentImage]) "nbr" () = none) := by
  have h1 : unmaskedAt [sampleObs] "nbr" () ≠ [] := by decide
  exact ⟨⟨h1, (C10_sentinel_merge_neutral Unit [sampleObs] "nbr" ()).1 h1⟩,
    ⟨rfl, ((C10_sentinel_merge_neutral Unit [] "nbr" ()).2 rfl).1⟩⟩

/-- Claim C5: when the date-filtered observation set of the pre-fire or
post-fire window is empty, the merged-with-sentinel collection still
composites to a raster carrying exactly the 15 index band names, selecting
allVariables from it succeeds, and every pixel of every band is no data. -/
theorem C5_empty_window_backfill :
    ∀ (P : Type) (col : List (Obs P)) (y : ℤ),
      (filterDate (advanceYears (-1) (startDate y)) (advanceYears (-1) (endDate y)) col = [] →
        compBands (preFilteredCol col y) = allVariables ∧
        selectBands allVariables (compBands (preFilteredCol col y)) = some allVariables ∧
        ∀ (b : String) (p : P), medianAt (preFilteredCol col y) b p = none) ∧
      (filterDate (advanceYears 1 (startDate y)) (advanceYears 1 (endDate y)) col = [] →
        compBands (postFilteredCol col y) = allVariables ∧
        selectBands allVariables (compBands (postFilteredCol col y)) = some allVariables ∧
        ∀ (b : String) (p : P), medianAt (postFilteredCol col y) b p = none) := by
  intro P col y
  constructor
  · intro h
    unfold preFilteredCol
    rw [h, List.nil_append]
    refine ⟨compBands_sentinel, ?_, fun b p => sentinel_only_composite b p⟩
    rw [compBands_sentinel]
    exact selectBands_all
  · intro h
    unfold postFilteredCol
    rw [h, List.nil_append]
    refine ⟨compBands_sentinel, ?_, fun b p => sentinel_only_composite b p⟩
    rw [compBands_sentinel]
    exact selectBands_all

/-- Witness for C5 on the empty collection. -/
theorem C5_empty_window_backfill_witness :
    filterDate (advanceYears (-1) (startDate 2000)) (advanceYears (-1) (endDate 2000))
      ([] : List (Obs Unit)) = [] ∧
    compBands (preFilteredCol ([] : List (Obs Unit)) 2000) = allVariables ∧
    medianAt (preFilteredCol ([] : List (Obs Unit)) 2000) "nbr" () = none :=
  ⟨rfl, ((C5_empty_window_backfill Unit [] 2000).1 rfl).1,
    ((C5_empty_window_backfill Unit [] 2000).1 rfl).2.2 "nbr" ()⟩

theorem medianQ_perm {l1 l2 : List ℚ} (h : List.Perm l1 l2) : medianQ l1 = medianQ l2 := by
  unfold medianQ
  rw [List.eq_of_perm_of_sorted
    (((List.perm_insertionSort _ l1).trans h).trans (List.perm_insertionSort _ l2).symm)
    (List.sorted_insertionSort _ l1) (List.sorted_insertionSort _ l2)]

theorem medianAt_perm {col1 col2 : List (Obs P)} (h : List.Perm col1 col2)
    (b : String) (p : P) : medianAt col1 b p = medianAt col2 b p := by
  unfold medianAt unmaskedAt
  exact medianQ_perm (h.filterMap _)

theorem filter_or_perm {α : Type} (p q : α → Bool) (l : List α)
    (hdisj : ∀ x, p x = true → q x = false) :
    List.Perm (l.filter p ++ l.filter q) (l.filter (fun x => p x || q x)) := by
  induction l with
  | nil => simp
  | cons a l ih =>
    by_cases hp : p a = true
    · have hq : q a = false := hdisj a hp
      rw [List.filter_cons_of_pos hp, List.filter_cons_of_neg (by simp [hq]),
        List.filter_cons_of_pos (by simp [hp]), List.cons_append]
      exact ih.cons a
    · have hp2 : p a = false := by
        simp only [Bool.not_eq_true] at hp
        exact hp
      by_cases hq : q a = true
      · rw [List.filter_cons_of_neg (by simp [hp2]), List.filter_cons_of_pos hq,
          List.filter_cons_of_pos (by simp [hq])]
        exact List.perm_middle.trans (ih.cons a)
      · have hq2 : q a = false := by
          simp only [Bool.not_eq_true] at hq
          exact hq
        rw [List.filter_cons_of_neg (by simp [hp2]), List.filter_cons_of_neg (by simp [hq2]),
          List.filter_cons_of_neg (by simp [hp2, hq2])]
        exact ih

theorem inDateWindow_year {a : ℤ} {d : LsDate}
    (h : inDateWindow (startDate a) (endDate a) d) : d.year = a := by
  simp only [inDateWindow, dateLE, dateLT, startDate, endDate] at h
  omega

theorem window_filter_disjoint {y1 y2 : ℤ} (hne : y1 ≠ y2) (o : Obs P)
    (h1 : decide (inDateWindow (startDate y1) (endDate y1) o.t) = true) :
    decide (inDateWindow (startDate y2) (endDate y2) o.t) = false := by
  rw [decide_eq_true_eq] at h1
  rw [decide_eq_false_iff_not]
  intro h2
  have e1 : o.t.year = y1 := inDateWindow_year h1
  have e2 : o.t.year = y2 := inDateWindow_year h2
  omega

theorem PREmedian_eq (col : List (Obs P)) (y : ℤ) (b : String) (p : P) :
    PREmedianCode col y b p = PREmedianSpec col y b p := by
  unfold PREmedianCode PREmedianSpec filterDate
  have e1 : advanceYears (-1) (startDate y) = startDate (y - 1) := rfl
  have e2 : advanceYears (-1) (endDate y) = endDate (y - 1) := rfl
  have e3 : advanceYears (-2) (startDate y) = startDate (y - 2) := rfl
  have e4 : advanceYears (-2) (endDate y) = endDate (y - 2) := rfl
  have e5 : advanceYears (-3) (startDate y) = startDate (y - 3) := rfl
  have e6 : advanceYears (-3) (endDate y) = endDate (y - 3) := rfl
  rw [e1, e2, e3, e4, e5, e6]
  apply medianAt_perm
  have h23 := filter_or_perm
    (fun o => decide (inDateWindow (startDate (y - 2)) (endDate (y - 2)) o.t))
    (fun o => decide (inDateWindow (startDate (y - 3)) (endDate (y - 3)) o.t))
    col (fun o h => window_filter_disjoint (by omega) o h)
  have h123 := filter_or_perm
    (fun o => decide (inDateWindow (startDate (y - 1)) (endDate (y - 1)) o.t))
    (fun o => decide (inDateWindow (startDate (y - 2)) (endDate (y - 2)) o.t) ||
      decide (inDateWindow (startDate (y - 3)) (endDate (y - 3)) o.t))
    col ?_
  · exact (h23.append_left _).trans h123
  · intro o h
    have h2 := window_filter_disjoint (show (y-1) ≠ (y-2) by omega) o h
    have h3 := window_filter_disjoint (show (y-1) ≠ (y-3) by omega) o h
    simp [h2, h3]

theorem filterDate_TSdevDiv (s e : LsDate) (M : String → P → Option ℚ) (col : List (Obs P)) :
    filterDate s e (TSdevDiv col M) = TSdevDiv (filterDate s e col) M := by
  unfold filterDate TSdevDiv
  rw [List.filter_map]
  rfl

theorem minOpt_comm (a b : Option ℚ) : minOpt a b = minOpt b a := by
  cases a <;> cases b <;> simp [minOpt, min_comm]

theorem divCol_eq (col : List (Obs P)) (y : ℤ) (b : String) (p : P) :
    divColCode col y b p = divColSpec col y b p := by
  have hM : PREmedianCode (P := P) col y = PREmedianSpec col y :=
    funext fun b2 => funext fun p2 => PREmedian_eq col y b2 p2
  unfold divColCode divColSpec
  rw [hM, filterDate_TSdevDiv, filterDate_TSdevDiv]
  have e1 : advanceYears 1 (startDate y) = startDate (y + 1) := rfl
  have e2 : advanceYears 1 (endDate y) = endDate (y + 1) := rfl
  have e3 : advanceYears 0 (startDate y) = startDate y := by
    simp [advanceYears, startDate]
  have e4 : advanceYears 0 (endDate y) = endDate y := by
    simp [advanceYears, endDate]
  rw [e1, e2, e3, e4]
  exact minOpt_comm _ _

/-- Claim C7: the deviation detector computes PREmedian as the pixelwise
median over the union of the three observation windows of years
analysis_year-1, -2 and -3 (each within the fixed June 15 to September 1
day-of-year window), and divCol as the pixelwise minimum of two rasters,
each the median over one evaluation window (the fire year, and the fire
year + 1) of every observation divided pixelwise by PREmedian. -/
theorem C7_deviation_detector_baseline_and_ratio :
    ∀ (P : Type) (col : List (Obs P)) (y : ℤ) (b : String) (p : P),
      PREmedianCode col y b p = PREmedianSpec col y b p ∧
      divColCode col y b p = divColSpec col y b p :=
  fun _ col y b p => ⟨PREmedian_eq col y b p, divCol_eq col y b p⟩
